import Mathlib

/-!
Verification of the Launchpad status-bar indicator (`FocusIndicator`) and the
home webview connection-flag caching (`HomeWebviewProvider`) of this repository.

The TypeScript sources are shallowly embedded: the mutable fields of each class
become a Lean structure, each method becomes a pure function from the old state
(plus the values it reads from the environment: configuration, clock, external
integration status) to the new state.  JavaScript timers (`setTimeout` /
`setInterval`) are modelled by a small scheduler state that tracks the set of
live timers by id together with the stored handle field `_refreshTimer`;
`clearInterval(h)` removes `h` from the live set (and is a no-op on an already
fired or cancelled handle), exactly as in the host runtime.
-/

namespace GitLens

/-- `FocusIndicatorState` from the source: `'idle' | 'disconnected' | 'loading' | 'load'`. -/
inductive FocusIndicatorState
  | idle
  | disconnected
  | loading
  | load
deriving DecidableEq, Repr

/-- The kind of a JavaScript timer armed by `startRefreshTimer`: a one-shot
`setTimeout` with a first delay, or a repeating `setInterval` with a period
(both in milliseconds). -/
inductive TimerKind
  | timeout (delayMs : Int)
  | interval (periodMs : Int)
deriving DecidableEq, Repr

/-- The timer environment seen by the `FocusIndicator`: `nextId` is the next
fresh timer id the host would hand out, `live` is the list of currently
scheduled (not yet fired / not cancelled) timers, and `handle` is the value of
the `_refreshTimer` field (which may be a stale handle of an already cancelled
timer, since `startRefreshTimer` cancels without clearing the field). -/
structure Sched where
  nextId : Nat
  live : List (Nat × TimerKind)
  handle : Option Nat
deriving DecidableEq, Repr

/-- Arm a fresh timer and store its handle in `_refreshTimer`. -/
def Sched.arm (s : Sched) (k : TimerKind) : Sched :=
  { nextId := s.nextId + 1, live := (s.nextId, k) :: s.live, handle := some s.nextId }

/-- `if (this._refreshTimer != null) clearInterval(this._refreshTimer)`:
cancels the timer the handle refers to (if it is still live) without clearing
the `_refreshTimer` field. -/
def Sched.cancelHandle (s : Sched) : Sched :=
  match s.handle with
  | some h => { s with live := s.live.filter (fun p => p.1 ≠ h) }
  | none => s

/-- The empty timer environment at construction time. -/
def Sched.initial : Sched := { nextId := 0, live := [], handle := none }

/-- Modelled from the spec: `FocusGroup` is defined in `focusProvider.ts`,
which is not among the provided sources.  The indicator's rendering switch
handles the four groups below; `other` stands for any further group value
(the `switch` in `updateStatusBarWithItems` has no case for it). -/
inductive FocusGroup
  | mergeable
  | blocked
  | followUp
  | needsReview
  | other
deriving DecidableEq, Repr

/-- `configuration.get('launchpad.indicator.label')`: the source compares the
value against `'item'`; any other value behaves alike. -/
inductive LabelKind
  | item
  | counts
deriving DecidableEq, Repr

/-- `configuration.get('launchpad.indicator.icon')`: the source compares the
value against `'group'`; `defaultIcon` stands for `'default'`. -/
inductive IconKind
  | defaultIcon
  | group
deriving DecidableEq, Repr

/-- Configuration keys read by `FocusIndicator` (the `launchpad.indicator.*`
section), as a record of current values.  `pollingInterval` is in minutes as in
`configuration.get('launchpad.indicator.polling.interval')`.  `groupsCfg`,
`labelCfg` and `iconCfg` are optional because the source applies `?? []`,
`?? 'item'` and `?? 'default'` fallbacks when reading them. -/
structure Config where
  indicatorEnabled : Bool
  pollingEnabled : Bool
  pollingInterval : Int
  openInEditor : Bool
  useColors : Bool
  groupsCfg : Option (List FocusGroup)
  labelCfg : Option LabelKind
  iconCfg : Option IconKind
deriving DecidableEq, Repr

/-- `configuration.get('launchpad.indicator.polling.interval') * 1000 * 60`. -/
def Config.refreshIntervalMs (cfg : Config) : Int :=
  cfg.pollingInterval * 1000 * 60

/-- `FocusIndicator.startRefreshTimer(firstDelay?)` (source lines 120-142):
cancel the stored handle if any, bail out when polling is disabled or the state
is `disconnected` or the configured interval is `<= 0`, otherwise arm either a
one-shot first timer (when `firstDelay` is given) or a steady repeating timer. -/
def startRefreshTimer (cfg : Config) (st : FocusIndicatorState) (firstDelay : Option Int)
    (s : Sched) : Sched :=
  let s1 := s.cancelHandle
  if ¬cfg.pollingEnabled ∨ st = .disconnected then s1
  else
    let refreshInterval := cfg.refreshIntervalMs
    if refreshInterval ≤ 0 then s1
    else
      match firstDelay with
      | some d => s1.arm (.timeout d)
      | none => s1.arm (.interval refreshInterval)

/-- `FocusIndicator.clearRefreshTimer()` (source lines 144-149). -/
def clearRefreshTimer (s : Sched) : Sched :=
  match s.handle with
  | some _ => { s.cancelHandle with handle := none }
  | none => s

/-- The timer-kind `startRefreshTimer` arms in its non-blocked branch. -/
def startTimerKind (cfg : Config) (firstDelay : Option Int) : TimerKind :=
  match firstDelay with
  | some d => .timeout d
  | none => .interval cfg.refreshIntervalMs

/-- A repository reference on a focus item (`item.repository`). -/
structure Repo where
  ownerLogin : String
  name : String
deriving DecidableEq, Repr

/-- The fields of `FocusItem` the indicator reads.  `group` is modelled from
the spec: the (missing) `focusProvider.ts` buckets each item into a
`FocusGroup` by its actionable category ("externally computed, grouped
actionable entries bucketed by actionability category"), so we record the
bucket on the item itself. -/
structure FocusItem where
  id : String
  group : FocusGroup
  actionableCategory : String
  repository : Option Repo
deriving DecidableEq, Repr

instance : Inhabited FocusItem := ⟨⟨"", .other, "", none⟩⟩

/-- The fixed order in which groups appear, used by the modelled
`groupAndSortFocusItems`. -/
def focusGroupOrder : List FocusGroup :=
  [.mergeable, .blocked, .followUp, .needsReview, .other]

/-- Modelled from the spec: `groupAndSortFocusItems` lives in
`focusProvider.ts`, which is not among the provided sources.  Per the spec it
"groups items by category"; we bucket the (possibly `undefined`) item list by
each item's group, in the fixed group order. -/
def groupAndSortFocusItems (categorizedItems : Option (List FocusItem)) :
    List (FocusGroup × List FocusItem) :=
  focusGroupOrder.map (fun g => (g, (categorizedItems.getD []).filter (fun i => i.group = g)))

/-- `Array.from(groupedItems.values()).reduce((total, group) => total + group.length, 0)`. -/
def totalGroupedItems (categorizedItems : Option (List FocusItem)) : Nat :=
  ((groupAndSortFocusItems categorizedItems).map (fun p => p.2.length)).sum

/-- `groupedItems.get(group)` on the grouped map. -/
def groupedGet (grouped : List (FocusGroup × List FocusItem)) (g : FocusGroup) :
    Option (List FocusItem) :=
  (grouped.find? (fun p => p.1 = g)).map (fun p => p.2)

/-- Modelled: `pluralize(word, count)` from `system/string.ts` (not among the
provided sources): `"{count} {word}s"` with no trailing `s` when the count is
one, and an optional infix between the count and the word. -/
def pluralizeWith (word : String) (count : Nat) (sep : String) : String :=
  toString count ++ sep ++ word ++ (if count = 1 then "" else "s")

/-- `pluralize(word, count)` with the default separator. -/
def pluralize (word : String) (count : Nat) : String :=
  pluralizeWith word count " "

/-- Uppercase hexadecimal digit, for percent-encoding. -/
def uriHexDigit (n : Nat) : Char :=
  if n < 10 then Char.ofNat (48 + n) else Char.ofNat (55 + n)

/-- Characters `encodeURIComponent` leaves unescaped. -/
def isUriUnreserved (c : Char) : Bool :=
  c.isAlphanum || c == '-' || c == '_' || c == '.' || c == '!' || c == '~' ||
    c == '*' || c == Char.ofNat 39 || c == '(' || c == ')'

/-- Host `encodeURIComponent`, modelled for the ASCII strings that occur here:
unreserved characters pass through, anything else is percent-encoded. -/
def encodeURIComponent (s : String) : String :=
  String.join (s.toList.map (fun c =>
    if isUriUnreserved c then String.singleton c
    else "%" ++ String.singleton (uriHexDigit (c.toNat / 16)) ++
      String.singleton (uriHexDigit (c.toNat % 16))))

/-- `JSON.stringify({ source: 'indicator', state: { initialGroup: g, selectTopItem: b } })`. -/
def launchpadCommandArg (group : String) (selectTopItem : Bool) : String :=
  "\x7b\"source\":\"indicator\",\"state\":\x7b\"initialGroup\":\"" ++ group ++
    "\",\"selectTopItem\":" ++ (if selectTopItem then "true" else "false") ++ "\x7d\x7d"

/-- `FocusIndicator.getTopItemLabel(item, groupLength?)` (source lines 487-493). -/
def getTopItemLabel (item : FocusItem) (groupLength : Option Nat) : String :=
  (match item.repository with
    | some r => r.ownerLogin ++ "/" ++ r.name
    | none => "") ++ "#" ++ item.id ++
  (match groupLength with
    | some gl => if gl > 1 then " and " ++ pluralizeWith "pull request" (gl - 1) " other " else ""
    | none => "")

/-- `groupByMap` from `system/iterable.ts` (not among the provided sources):
group a list into a key-indexed map, keys in first-appearance order, values in
list order — the behaviour of filling a JavaScript `Map` of arrays. -/
def groupByMap (l : List FocusItem) (f : FocusItem → String) : List (String × List FocusItem) :=
  l.foldl (fun acc x =>
    let k := f x
    if acc.any (fun p => p.1 = k) then
      acc.map (fun p => if p.1 = k then (p.1, p.2 ++ [x]) else p)
    else acc ++ [(k, [x])]) []

/-- The accumulator threaded through the group-rendering loop of
`updateStatusBarWithItems`: the tooltip markdown built so far and the
`color` / `topItem` / `topIcon` mutable locals. -/
structure RenderAcc where
  tooltip : String
  color : Option String
  topItem : Option (FocusItem × String)
  topIcon : Option String
deriving DecidableEq, Repr

/-- The `case 'mergeable'` arm (source lines 294-314). -/
def renderMergeableGroup (labelIsItem : Bool) (acc : RenderAcc) (hd : FocusItem)
    (items : List FocusItem) : RenderAcc :=
  let topIcon := some (acc.topIcon.getD "rocket")
  let topItem := some (acc.topItem.getD (hd, "can be merged"))
  let md := "<span style=\"color:#3d90fc;\">$(rocket)</span> [" ++
    (if labelIsItem ∧ topItem.isSome then
        getTopItemLabel (topItem.getD (hd, "")).1 (some items.length)
      else pluralize "pull request" items.length) ++
    " can be merged](command:gitlens.showLaunchpad?" ++
    encodeURIComponent (launchpadCommandArg "mergeable" labelIsItem) ++
    " \"Open Ready to Merge in Launchpad\")"
  { tooltip := acc.tooltip ++ md, color := some "#00FF00", topItem := topItem, topIcon := topIcon }

/-- The sequential `if (actionGroupItems?.length)` blocks of the `'blocked'`
arm, one step: returns the updated `(item, actionMessage, summaryMessage)`. -/
def blockedActionStep (ag : List FocusItem) (msg : String) (sepNeeded : Bool)
    (st : Option FocusItem × String × String) : Option FocusItem × String × String :=
  if ag.length ≠ 0 then
    (some (st.1.getD ag.headI), msg,
      st.2.2 ++ (if sepNeeded then ", " else "") ++ toString ag.length ++ " " ++ msg)
  else st

/-- The `case 'blocked'` arm (source lines 315-389). -/
def renderBlockedGroup (labelIsItem : Bool) (acc : RenderAcc)
    (items : List FocusItem) : RenderAcc :=
  let action := groupByMap items (fun i =>
    if i.actionableCategory = "failed-checks" ∨ i.actionableCategory = "conflicts" ∨
        i.actionableCategory = "unassigned-reviewers"
    then i.actionableCategory else "blocked")
  let hasMultipleCategories := action.length > 1
  let st0 : Option FocusItem × String × String := (none, "", "(")
  let agU := ((action.find? (fun p => p.1 = "unassigned-reviewers")).map (fun p => p.2)).getD []
  let st1 := blockedActionStep agU
    ((if agU.length > 1 then "need" else "needs") ++ " reviewers") false st0
  let agF := ((action.find? (fun p => p.1 = "failed-checks")).map (fun p => p.2)).getD []
  let st2 := blockedActionStep agF "failed CI checks" hasMultipleCategories st1
  let agC := ((action.find? (fun p => p.1 = "conflicts")).map (fun p => p.2)).getD []
  let st3 := blockedActionStep agC
    ((if agC.length > 1 then "have" else "has") ++ " conflicts") hasMultipleCategories st2
  let item := st3.1
  let actionMessage := st3.2.1
  let summaryMessage := st3.2.2 ++ ")"
  let topIcon := some (acc.topIcon.getD "error")
  let md := "<span style=\"color:#FF0000;\">$(error)</span> [" ++
    (if labelIsItem ∧ item.isSome ∧ acc.topItem = none then
        getTopItemLabel (item.getD default) (some items.length)
      else pluralize "pull request" items.length) ++ " " ++
    (if hasMultipleCategories then "are blocked" else actionMessage) ++
    "](command:gitlens.showLaunchpad?" ++
    encodeURIComponent (launchpadCommandArg "blocked" labelIsItem) ++
    " \"Open Blocked in Launchpad\")" ++
    (if hasMultipleCategories then "\\\n$(blank) " ++ summaryMessage else "")
  let color := some (acc.color.getD "#FF0000")
  let topItem :=
    match item with
    | some it =>
      let label :=
        if it.actionableCategory = "unassigned-reviewers" then "needs reviewers"
        else if it.actionableCategory = "failed-checks" then "failed CI checks"
        else if it.actionableCategory = "conflicts" then "has conflicts"
        else "is blocked"
      some (acc.topItem.getD (it, label))
    | none => acc.topItem
  { tooltip := acc.tooltip ++ md, color := color, topItem := topItem, topIcon := topIcon }

/-- The `case 'follow-up'` arm (source lines 390-412). -/
def renderFollowUpGroup (labelIsItem : Bool) (acc : RenderAcc) (hd : FocusItem)
    (items : List FocusItem) : RenderAcc :=
  let topIcon := some (acc.topIcon.getD "report")
  let md := "<span style=\"color:#3d90fc;\">$(report)</span> [" ++
    (if labelIsItem ∧ acc.topItem = none ∧ items.length ≠ 0 then
        getTopItemLabel hd (some items.length)
      else pluralize "pull request" items.length) ++ " " ++
    (if items.length > 1 then "require" else "requires") ++
    " follow-up](command:gitlens.showLaunchpad?" ++
    encodeURIComponent (launchpadCommandArg "follow-up" labelIsItem) ++
    " \"Open Follow-Up in Launchpad\")"
  { tooltip := acc.tooltip ++ md
    color := some (acc.color.getD "#FFA500")
    topItem := some (acc.topItem.getD (hd, "requires follow-up"))
    topIcon := topIcon }

/-- The `case 'needs-review'` arm (source lines 413-435). -/
def renderNeedsReviewGroup (labelIsItem : Bool) (acc : RenderAcc) (hd : FocusItem)
    (items : List FocusItem) : RenderAcc :=
  let topIcon := some (acc.topIcon.getD "comment-draft")
  let md := "<span style=\"color:#3d90fc;\">$(comment-draft)</span> [" ++
    (if labelIsItem ∧ acc.topItem = none ∧ items.length ≠ 0 then
        getTopItemLabel hd (some items.length)
      else pluralize "pull request" items.length) ++ " " ++
    (if items.length > 1 then "need" else "needs") ++
    " your review](command:gitlens.showLaunchpad?" ++
    encodeURIComponent (launchpadCommandArg "needs-review" labelIsItem) ++
    " \"Open Needs Your Review in Launchpad\")"
  { tooltip := acc.tooltip ++ md
    color := some (acc.color.getD "#FFFF00")
    topItem := some (acc.topItem.getD (hd, "needs your review"))
    topIcon := topIcon }

/-- One iteration of `for (const group of groups)` (source lines 285-437). -/
def renderGroupStep (labelIsItem : Bool) (grouped : List (FocusGroup × List FocusItem))
    (acc : RenderAcc) (g : FocusGroup) : RenderAcc :=
  match (groupedGet grouped g).getD [] with
  | [] => acc
  | hd :: tl =>
    let items := hd :: tl
    let acc := if acc.tooltip ≠ "" then { acc with tooltip := acc.tooltip ++ "\n\n---\n\n" } else acc
    match g with
    | .mergeable => renderMergeableGroup labelIsItem acc hd items
    | .blocked => renderBlockedGroup labelIsItem acc items
    | .followUp => renderFollowUpGroup labelIsItem acc hd items
    | .needsReview => renderNeedsReviewGroup labelIsItem acc hd items
    | .other => acc

/-- The pure part of `updateStatusBarWithItems` (source lines 265-448): from
the configuration, the tooltip built so far and the items, compute the
status-bar `(text, tooltip, color)` payload. -/
def renderLoad (cfg : Config) (baseTooltip : String)
    (categorizedItems : Option (List FocusItem)) : String × String × Option String :=
  let labelIsItem := cfg.labelCfg.getD .item = .item
  let groups := cfg.groupsCfg.getD []
  let grouped := groupAndSortFocusItems categorizedItems
  let total := totalGroupedItems categorizedItems
  let hasImportantGroupsWithItems :=
    groups.any (fun g => ((groupedGet grouped g).getD []).length ≠ 0)
  let acc0 : RenderAcc := { tooltip := baseTooltip, color := none, topItem := none, topIcon := none }
  let acc :=
    if total = 0 then
      { acc0 with tooltip := acc0.tooltip ++ "You are all caught up!" }
    else if ¬hasImportantGroupsWithItems then
      { acc0 with tooltip := acc0.tooltip ++
          "No pull requests need your attention\\\n(" ++ toString total ++
          " other pull requests)" }
    else groups.foldl (renderGroupStep labelIsItem grouped) acc0
  let iconSegment :=
    if acc.topIcon.isSome ∧ cfg.iconCfg.getD .defaultIcon = .group then
      "$(" ++ acc.topIcon.getD "" ++ ")"
    else "$(rocket)"
  let labelSegment :=
    match acc.topItem with
    | some t => if labelIsItem then " " ++ getTopItemLabel t.1 none ++ " " ++ t.2 else ""
    | none => ""
  (iconSegment ++ labelSegment, acc.tooltip, acc.color)

/-- The command bound to the status-bar item by `updateStatusBarCommand`. -/
inductive CommandBinding
  | showFocusPage
  | openLaunchpad (selectTopItem : Bool)
deriving DecidableEq, Repr

/-- The status-bar item surface the indicator renders to. -/
structure StatusBarItem where
  text : String
  tooltip : String
  color : Option String
  command : Option CommandBinding
deriving DecidableEq, Repr

/-- The render payload of a status-bar item (everything except the command). -/
def StatusBarItem.payload (sb : StatusBarItem) : String × String × Option String :=
  (sb.text, sb.tooltip, sb.color)

/-- The freshly created status-bar item of `onReady`. -/
def initialStatusBarItem : StatusBarItem :=
  { text := "", tooltip := "", color := none, command := none }

/-- The complete mutable state of a `FocusIndicator`, together with the bits of
the container it writes: the `launchpad:indicator:hasLoaded` storage flag and a
count of telemetry events sent. -/
structure Indicator where
  statusBar : Option StatusBarItem
  sched : Sched
  state : FocusIndicatorState
  lastDataUpdate : Option Int
  lastRefreshPaused : Option Int
  hasLoadedStored : Bool
  telemetrySent : Nat
deriving DecidableEq, Repr

/-- `FocusIndicator.sendTelemetryFirstLoadEvent()` (source lines 495-503). -/
def sendTelemetryFirstLoadEvent (telemetryEnabled : Bool) (s : Indicator) : Indicator :=
  if ¬telemetryEnabled then s
  else if ¬s.hasLoadedStored then
    { s with hasLoadedStored := true, telemetrySent := s.telemetrySent + 1 }
  else s

/-- Modelled: the `previewBadge` constant from `constants.ts` (not among the
provided sources); its exact text is immaterial here. -/
def previewBadge : String := "preview"

/-- The tooltip header built at the top of `updateStatusBar`
(source lines 190-200). -/
def tooltipHeader : String :=
  "GitLens Launchpad " ++ previewBadge ++
  "    &mdash;    " ++
  "[$(gear)](command:workbench.action.openSettings?%22gitlens.launchpad%22 \"Settings\")" ++
  "   |   " ++
  "[$(circle-slash) Hide](command:gitlens.launchpad.indicator.action?\"hide\" \"Hide\")" ++
  "\n\n---\n\n"

/-- The learn-about text appended for `idle`/`disconnected`/`loading`
(source lines 203-210). -/
def launchpadInfoText : String :=
  "[Launchpad](command:gitlens.getStarted?\"gitlens.welcome.launchpad\" \"Learn about Launchpad\") organizes your pull requests into actionable groups to help you focus and keep your team unblocked." ++
  "\n\nIt\x27s always accessible using the `GitLens: Open Launchpad` command from the Command Palette."

/-- The extra tooltip line of the `disconnected` case (source lines 222-224). -/
def connectText : String :=
  "\n\n[Connect to GitHub](command:gitlens.launchpad.indicator.action?\"connectGitHub\" \"Connect to GitHub\") to get started."

/-- `FocusIndicator.updateStatusBarWithItems(tooltip, categorizedItems)`
(source lines 259-449): sends the first-load telemetry event, records the data
update time, and overwrites the status-bar payload with the rendered one. -/
def updateStatusBarWithItems (cfg : Config) (telemetryEnabled : Bool) (now : Int)
    (tooltip : String) (categorizedItems : Option (List FocusItem)) (s : Indicator) : Indicator :=
  match s.statusBar with
  | none => s
  | some sb =>
    let s1 := sendTelemetryFirstLoadEvent telemetryEnabled s
    let s2 := { s1 with lastDataUpdate := some now }
    let r := renderLoad cfg tooltip categorizedItems
    { s2 with
      statusBar := some { sb with
        text := r.1
        tooltip := r.2.1
        color := if cfg.useColors then r.2.2 else none } }

/-- `FocusIndicator.updateStatusBar(state, categorizedItems?)`
(source lines 184-244). -/
def updateStatusBar (cfg : Config) (telemetryEnabled : Bool) (now : Int)
    (state : FocusIndicatorState) (categorizedItems : Option (List FocusItem))
    (s : Indicator) : Indicator :=
  match s.statusBar with
  | none => s
  | some sb =>
    if state = s.state ∧ state ≠ .load then s
    else
      let s1 := { s with state := state }
      let tooltip := tooltipHeader ++
        (if state = .idle ∨ state = .disconnected ∨ state = .loading then launchpadInfoText else "")
      match state with
      | .idle =>
        { s1 with
          sched := clearRefreshTimer s1.sched
          statusBar := some { sb with text := "$(rocket)", tooltip := tooltip, color := none } }
      | .disconnected =>
        { s1 with
          sched := clearRefreshTimer s1.sched
          statusBar := some { sb with
            text := "$(rocket)$(gitlens-unplug) Launchpad"
            tooltip := tooltip ++ connectText
            color := none } }
      | .loading =>
        { s1 with
          sched := startRefreshTimer cfg s1.state (some 5000) s1.sched
          statusBar := some { sb with
            text := "$(loading~spin)"
            tooltip := tooltip ++ "\n\n---\n\n$(loading~spin) Loading..."
            color := none } }
      | .load => updateStatusBarWithItems cfg telemetryEnabled now tooltip categorizedItems s1

/-- `FocusIndicator.updateStatusBarCommand()` (source lines 246-257). -/
def updateStatusBarCommand (cfg : Config) (s : Indicator) : Indicator :=
  match s.statusBar with
  | none => s
  | some sb =>
    let labelIsItem := cfg.labelCfg.getD .item = .item
    { s with
      statusBar := some { sb with
        command := some (if cfg.openInEditor then .showFocusPage
          else .openLaunchpad labelIsItem) } }

/-- `FocusIndicator.maybeLoadData()` (source lines 87-100); `hasConnected` is
the answer of `this.focus.hasConnectedIntegration()`. -/
def maybeLoadData (cfg : Config) (hasConnected : Bool) (telemetryEnabled : Bool) (now : Int)
    (s : Indicator) : Indicator :=
  if cfg.pollingEnabled ∧ cfg.pollingInterval > 0 then
    if hasConnected then updateStatusBar cfg telemetryEnabled now .loading none s
    else updateStatusBar cfg telemetryEnabled now .disconnected none s
  else updateStatusBar cfg telemetryEnabled now .idle none s

/-- `FocusIndicator.onFocusRefreshed(e)` (source lines 102-106). -/
def onFocusRefreshed (cfg : Config) (telemetryEnabled : Bool) (now : Int)
    (items : List FocusItem) (s : Indicator) : Indicator :=
  if s.statusBar = none ∨ ¬cfg.pollingEnabled then s
  else updateStatusBar cfg telemetryEnabled now .load (some items) s

/-- `FocusIndicator.onWindowStateChanged(e)` (source lines 151-182). -/
def onWindowStateChanged (cfg : Config) (now : Int) (focused : Bool) (s : Indicator) : Indicator :=
  if s.state = .disconnected ∨ s.state = .idle then s
  else if ¬focused then
    { s with sched := clearRefreshTimer s.sched, lastRefreshPaused := some now }
  else
    match s.lastRefreshPaused with
    | none => s
    | some pausedAt =>
      if s.state = .loading then
        { s with sched := startRefreshTimer cfg s.state (some 5000) s.sched }
      else
        let timeSinceLastUpdate : Option Int := s.lastDataUpdate.map (fun u => now - u)
        let timeSinceLastUnfocused : Int := now - pausedAt
        let s1 := { s with lastRefreshPaused := none }
        let refreshInterval := cfg.refreshIntervalMs
        let t0 : Int :=
          match timeSinceLastUpdate with
          | some t => refreshInterval - t
          | none => refreshInterval
        let timeToNextPoll := if t0 < 0 then 0 else t0
        let diff := timeToNextPoll - timeSinceLastUnfocused
        { s1 with sched := startRefreshTimer cfg s1.state (some (if diff < 0 then 0 else diff)) s1.sched }

/-- A configuration-change event: the new configuration together with which
`launchpad.indicator` keys `configuration.changed(e, …)` reports as affected. -/
structure ConfigChange where
  newCfg : Config
  openInEditorChanged : Bool
  pollingEnabledChanged : Bool
  pollingIntervalChanged : Bool
  useColorsChanged : Bool
  iconChanged : Bool
  labelChanged : Bool
  groupsChanged : Bool
  otherIndicatorChanged : Bool
deriving DecidableEq, Repr

/-- `configuration.changed(e, 'launchpad.indicator.polling')`. -/
def ConfigChange.pollingChanged (e : ConfigChange) : Bool :=
  e.pollingEnabledChanged || e.pollingIntervalChanged

/-- `configuration.changed(e, 'launchpad.indicator')`. -/
def ConfigChange.indicatorChanged (e : ConfigChange) : Bool :=
  e.openInEditorChanged || e.pollingEnabledChanged || e.pollingIntervalChanged ||
    e.useColorsChanged || e.iconChanged || e.labelChanged || e.groupsChanged ||
    e.otherIndicatorChanged

/-- The `launchpad.indicator.polling` block of `onConfigurationChanged`
(source lines 64-72): returns the updated state and the `reloaded` flag. -/
def configPollingStep (e : ConfigChange) (hasConnected : Bool) (telemetryEnabled : Bool)
    (now : Int) (s1 : Indicator) : Indicator × Bool :=
  if e.pollingChanged then
    if e.pollingEnabledChanged then
      (maybeLoadData e.newCfg hasConnected telemetryEnabled now s1, true)
    else if e.pollingIntervalChanged then
      ({ s1 with sched := startRefreshTimer e.newCfg s1.state none s1.sched }, false)
    else (s1, false)
  else (s1, false)

/-- The rendering-options block of `onConfigurationChanged`
(source lines 74-84). -/
def configRenderStep (e : ConfigChange) (hasConnected : Bool) (telemetryEnabled : Bool)
    (now : Int) (s2 : Indicator) (reloaded : Bool) : Indicator :=
  if (¬reloaded ∧ e.useColorsChanged) ∨ e.iconChanged ∨ e.labelChanged ∨ e.groupsChanged then
    let s3 := maybeLoadData e.newCfg hasConnected telemetryEnabled now s2
    if e.labelChanged then updateStatusBarCommand e.newCfg s3 else s3
  else s2

/-- `FocusIndicator.onConfigurationChanged(e)` (source lines 57-85); the
handler runs with the new configuration already in effect. -/
def onConfigurationChanged (e : ConfigChange) (hasConnected : Bool) (telemetryEnabled : Bool)
    (now : Int) (s : Indicator) : Indicator :=
  if ¬e.indicatorChanged then s
  else
    let s1 := if e.openInEditorChanged then updateStatusBarCommand e.newCfg s else s
    let step2 := configPollingStep e hasConnected telemetryEnabled now s1
    configRenderStep e hasConnected telemetryEnabled now step2.1 step2.2

/-- `FocusIndicator.onConnectedIntegrationsChanged(e)` (source lines 51-55);
`supported` is `supportedFocusIntegrations.includes(e.key)`. -/
def onConnectedIntegrationsChanged (supported : Bool) (cfg : Config) (hasConnected : Bool)
    (telemetryEnabled : Bool) (now : Int) (s : Indicator) : Indicator :=
  if supported then maybeLoadData cfg hasConnected telemetryEnabled now s else s

/-- The constructor plus `onReady()` (source lines 29-42 and 108-118):
state starts `idle`; when the indicator is enabled, the status-bar item is
created, `maybeLoadData` runs, and the command is bound. -/
def initIndicator (cfg : Config) (hasConnected : Bool) (telemetryEnabled : Bool)
    (storedHasLoaded : Bool) (now : Int) : Indicator :=
  let s0 : Indicator :=
    { statusBar := none
      sched := Sched.initial
      state := .idle
      lastDataUpdate := none
      lastRefreshPaused := none
      hasLoadedStored := storedHasLoaded
      telemetrySent := 0 }
  if ¬cfg.indicatorEnabled then s0
  else
    let s1 := { s0 with statusBar := some initialStatusBarItem }
    let s2 := maybeLoadData cfg hasConnected telemetryEnabled now s1
    updateStatusBarCommand cfg s2

/-- The world the indicator lives in: the current configuration, whether
telemetry is enabled, and the indicator state. -/
structure World where
  cfg : Config
  telemetryEnabled : Bool
  ind : Indicator
deriving DecidableEq, Repr

/-- The external events the indicator subscribes to (constructor lines 33-39). -/
inductive Ev
  | configChange (e : ConfigChange) (hasConnected : Bool) (now : Int)
  | connChange (supported : Bool) (hasConnected : Bool) (now : Int)
  | focusChange (focused : Bool) (now : Int)
  | refreshEv (items : List FocusItem) (now : Int)

/-- Dispatch one external event to its handler. -/
def stepWorld (w : World) : Ev → World
  | .configChange e c now =>
    { w with cfg := e.newCfg, ind := onConfigurationChanged e c w.telemetryEnabled now w.ind }
  | .connChange sup c now =>
    { w with ind := onConnectedIntegrationsChanged sup w.cfg c w.telemetryEnabled now w.ind }
  | .focusChange f now => { w with ind := onWindowStateChanged w.cfg now f w.ind }
  | .refreshEv items now =>
    { w with ind := onFocusRefreshed w.cfg w.telemetryEnabled now items w.ind }

/-- The worlds reachable from a freshly constructed indicator under any
sequence of configuration-change, connection-change, focus-change and
data-refresh events. -/
inductive Reachable : World → Prop
  | init (cfg : Config) (hasConnected telemetryEnabled storedHasLoaded : Bool) (now : Int) :
      Reachable { cfg := cfg
                  telemetryEnabled := telemetryEnabled
                  ind := initIndicator cfg hasConnected telemetryEnabled storedHasLoaded now }
  | step (w : World) (ev : Ev) : Reachable w → Reachable (stepWorld w ev)

/-- Scheduler invariant maintained by the indicator: at most one timer is live,
and any live timer is the one the stored handle refers to. -/
def SchedInv (s : Sched) : Prop :=
  s.live.length ≤ 1 ∧ ∀ p ∈ s.live, s.handle = some p.1

/-- The indicator invariant: the scheduler invariant holds, and a
`disconnected` indicator holds no timer handle and no live timer. -/
def IndInv (s : Indicator) : Prop :=
  SchedInv s.sched ∧ (s.state = .disconnected → s.sched.handle = none ∧ s.sched.live = [])

instance (s : Sched) : Decidable (SchedInv s) := by
  unfold SchedInv; infer_instance

/-- The status-bar render payload `updateStatusBar` produces for each target
state: a pure function of the configuration, the target state and the items. -/
def statusBarRenderPayload (cfg : Config) (target : FocusIndicatorState)
    (items : Option (List FocusItem)) : String × String × Option String :=
  match target with
  | .idle => ("$(rocket)", tooltipHeader ++ launchpadInfoText, none)
  | .disconnected =>
    ("$(rocket)$(gitlens-unplug) Launchpad", tooltipHeader ++ launchpadInfoText ++ connectText,
      none)
  | .loading =>
    ("$(loading~spin)", tooltipHeader ++ launchpadInfoText ++
      "\n\n---\n\n$(loading~spin) Loading...", none)
  | .load =>
    let r := renderLoad cfg (tooltipHeader ++ "") items
    (r.1, r.2.1, if cfg.useColors then r.2.2 else none)

/- The home webview provider (`src/webviews/home/homeWebview.ts`). -/

/-- The connected integrations as the container reports them:
`integrations.getConnected('hosting')` and `getConnected('issues')`, by id. -/
structure HomeEnv where
  connectedHosting : List String
  connectedIssues : List String
deriving DecidableEq, Repr

/-- The mutable caches of `HomeWebviewProvider`: `_hostedIntegrationConnected`
(line 155, backing `isAnyIntegrationConnected`) and `hostedIntegrationConnected`
(line 36, backing `isHostedIntegrationConnected`). -/
structure HomeState where
  anyConnectedCache : Option Bool
  hostedConnectedCache : Option Bool
deriving DecidableEq, Repr

/-- `isSupportedIntegration(key)` (source lines 306-308); the
`HostingIntegrationId` ids come from the (missing) providers model and are the
GitHub / GitLab id strings. -/
def isSupportedIntegration (key : String) : Bool :=
  key == "github" || key == "gitlab"

/-- `HomeWebviewProvider.isAnyIntegrationConnected(force = false)`
(source lines 156-165). -/
def isAnyIntegrationConnected (env : HomeEnv) (force : Bool) (s : HomeState) :
    Bool × HomeState :=
  match s.anyConnectedCache, force with
  | some v, false => (v, s)
  | _, _ =>
    let v := decide (0 < (env.connectedHosting ++ env.connectedIssues).length)
    (v, { s with anyConnectedCache := some v })

/-- `HomeWebviewProvider.isHostedIntegrationConnected(force = false)`
(source lines 184-191). -/
def isHostedIntegrationConnected (env : HomeEnv) (force : Bool) (s : HomeState) :
    Bool × HomeState :=
  match s.hostedConnectedCache, force with
  | some v, false => (v, s)
  | _, _ =>
    let v := env.connectedHosting.any isSupportedIntegration
    (v, { s with hostedConnectedCache := some v })

/-- The connection-related fields of the `State` record `getState` builds. -/
structure HomeStateOut where
  repoHostConnected : Bool
  hasAnyIntegrationConnected : Bool
deriving DecidableEq, Repr

/-- `HomeWebviewProvider.getState()` (source lines 129-144), restricted to the
connection-related fields (the other fields read unrelated collaborators).  In
field-evaluation order: `onboardingState` calls
`isHostedIntegrationConnected()` (line 217), then `repoHostConnected` calls it
again (line 137), then `hasAnyIntegrationConnected` calls
`isAnyIntegrationConnected()` (line 142) — all without `force`. -/
def getState (env : HomeEnv) (s : HomeState) : HomeStateOut × HomeState :=
  let r0 := isHostedIntegrationConnected env false s
  let r1 := isHostedIntegrationConnected env false r0.2
  let r2 := isAnyIntegrationConnected env false r1.2
  ({ repoHostConnected := r1.1, hasAnyIntegrationConnected := r2.1 }, r2.2)

/-- `HomeWebviewProvider.notifyDidChangeOnboardingIntegration()`
(source lines 268-275): recomputes the hosted cache with `force`, then
`getOnboardingState()` reads it again without `force`. -/
def notifyDidChangeOnboardingIntegration (env : HomeEnv) (s : HomeState) : HomeState :=
  let r0 := isHostedIntegrationConnected env true s
  (isHostedIntegrationConnected env false r0.2).2

/-- The events that reach the provider's connection caches: a `getState` /
`includeBootstrap` request, a connection-state change (source lines 50-55: one
unfiltered subscription and one filtered by `isSupportedIntegration`), a usage
change (lines 87-92), and a webview reload (lines 106-111). -/
inductive HomeEv
  | getStateEv (env : HomeEnv)
  | connChangeEv (env : HomeEnv) (key : String)
  | usageChangeEv (env : HomeEnv) (relevant : Bool)
  | reloadedEv (env : HomeEnv)

/-- Dispatch one event to the provider. -/
def stepHome (s : HomeState) : HomeEv → HomeState
  | .getStateEv env => (getState env s).2
  | .connChangeEv env key =>
    let s1 := notifyDidChangeOnboardingIntegration env s
    if isSupportedIntegration key then notifyDidChangeOnboardingIntegration env s1 else s1
  | .usageChangeEv env relevant =>
    let s1 := if relevant then notifyDidChangeOnboardingIntegration env s else s
    (isHostedIntegrationConnected env false s1).2
  | .reloadedEv env =>
    let s1 := (isHostedIntegrationConnected env false s).2
    notifyDidChangeOnboardingIntegration env s1

/- Concrete sample inputs for the theorems below. -/

/-- A configuration with the indicator and polling enabled but a zero polling
interval. -/
def cfgPollOnInt0 : Config :=
  { indicatorEnabled := true
    pollingEnabled := true
    pollingInterval := 0
    openInEditor := false
    useColors := false
    groupsCfg := none
    labelCfg := none
    iconCfg := none }

/-- A configuration with the indicator and polling enabled and a one-minute
polling interval. -/
def cfgPollOnInt1 : Config := { cfgPollOnInt0 with pollingInterval := 1 }

/-- A configuration with polling disabled and a one-minute interval. -/
def cfgPollOff : Config := { cfgPollOnInt1 with pollingEnabled := false }

/-- A scheduler with one live repeating timer whose handle is stored. -/
def schedWithTimer : Sched :=
  { nextId := 5, live := [(4, .interval 60000)], handle := some 4 }

/-- The configuration-change event that only changes the polling interval
(from 0 to 1 minute). -/
def evIntervalChange : Ev :=
  .configChange
    { newCfg := cfgPollOnInt1
      openInEditorChanged := false
      pollingEnabledChanged := false
      pollingIntervalChanged := true
      useColorsChanged := false
      iconChanged := false
      labelChanged := false
      groupsChanged := false
      otherIndicatorChanged := false } false 10

/-- The world right after construction with `cfgPollOnInt0`: the indicator is
`idle` (interval is 0) with its status bar shown. -/
def worldIdleInt0 : World :=
  { cfg := cfgPollOnInt0
    telemetryEnabled := false
    ind := initIndicator cfgPollOnInt0 false false false 0 }

/-- An indicator in `loading` state with no live timer. -/
def sLoadingNoTimer : Indicator :=
  { statusBar := some initialStatusBarItem
    sched := Sched.initial
    state := .loading
    lastDataUpdate := none
    lastRefreshPaused := none
    hasLoadedStored := false
    telemetrySent := 0 }

/-- An indicator in `load` state that has never recorded a data update. -/
def sLoadNoUpd : Indicator := { sLoadingNoTimer with state := .load }

/-- An indicator in `load` state with a recorded data update. -/
def sLoadUpd : Indicator :=
  { sLoadNoUpd with lastDataUpdate := some 50000, sched := schedWithTimer }

/-- A container with one connected hosting integration. -/
def envGitHub : HomeEnv := { connectedHosting := ["github"], connectedIssues := [] }

/-- A container with no connected integrations. -/
def envEmpty : HomeEnv := { connectedHosting := [], connectedIssues := [] }

/-- A home webview provider with cold caches. -/
def homeInit : HomeState := { anyConnectedCache := none, hostedConnectedCache := none }

/-- `[...getConnected('hosting'), ...getConnected('issues')].length > 0`: the
freshly computed any-integration-connected flag. -/
def anyConnectedNow (env : HomeEnv) : Bool :=
  decide (0 < (env.connectedHosting ++ env.connectedIssues).length)

theorem schedInv_initial : SchedInv Sched.initial := by
  constructor <;> simp [Sched.initial]

theorem cancelHandle_live_nil {s : Sched} (h : SchedInv s) : s.cancelHandle.live = [] := by
  obtain ⟨-, hall⟩ := h
  unfold Sched.cancelHandle
  cases hh : s.handle with
  | none =>
    simp only
    cases hl : s.live with
    | nil => rfl
    | cons a t =>
      exfalso
      have := hall a (by simp [hl])
      rw [hh] at this
      exact Option.noConfusion this
  | some v =>
    simp only [List.filter_eq_nil_iff]
    intro a ha
    have := hall a ha
    rw [hh] at this
    have hv : a.1 = v := by
      injection this with h'
      exact h'.symm
    simp [hv]

theorem cancelHandle_nextId (s : Sched) : s.cancelHandle.nextId = s.nextId := by
  unfold Sched.cancelHandle
  cases s.handle <;> rfl

theorem cancelHandle_handle (s : Sched) : s.cancelHandle.handle = s.handle := by
  unfold Sched.cancelHandle
  cases hh : s.handle <;> simp [hh]

/-- Blocked branch of `startRefreshTimer`: when polling is disabled, the state
is `disconnected`, or the interval is non-positive, no timer is live afterwards
and the stored handle and id counter are untouched. -/
theorem startRefreshTimer_blocked {cfg : Config} {st : FocusIndicatorState}
    {firstDelay : Option Int} {s : Sched} (hinv : SchedInv s)
    (h : ¬cfg.pollingEnabled ∨ st = .disconnected ∨ cfg.refreshIntervalMs ≤ 0) :
    (startRefreshTimer cfg st firstDelay s).live = [] ∧
    (startRefreshTimer cfg st firstDelay s).handle = s.handle ∧
    (startRefreshTimer cfg st firstDelay s).nextId = s.nextId := by
  unfold startRefreshTimer
  by_cases h1 : ¬cfg.pollingEnabled ∨ st = .disconnected
  · simp only [h1, if_true]
    exact ⟨cancelHandle_live_nil hinv, cancelHandle_handle s, cancelHandle_nextId s⟩
  · have h2 : cfg.refreshIntervalMs ≤ 0 := by tauto
    simp only [h1, if_false, h2, if_true]
    exact ⟨cancelHandle_live_nil hinv, cancelHandle_handle s, cancelHandle_nextId s⟩

/-- Armed branch of `startRefreshTimer`: when polling is enabled, the state is
not `disconnected` and the interval is positive, exactly one (fresh) timer is
live afterwards — the previously live timer (if any) has been cancelled. -/
theorem startRefreshTimer_armed {cfg : Config} {st : FocusIndicatorState}
    {firstDelay : Option Int} {s : Sched} (hinv : SchedInv s)
    (h1 : cfg.pollingEnabled = true) (h2 : st ≠ .disconnected)
    (h3 : 0 < cfg.refreshIntervalMs) :
    startRefreshTimer cfg st firstDelay s =
      { nextId := s.nextId + 1,
        live := [(s.nextId, startTimerKind cfg firstDelay)],
        handle := some s.nextId } := by
  unfold startRefreshTimer
  have hg : ¬(¬cfg.pollingEnabled ∨ st = .disconnected) := by
    simp [h1, h2]
  simp only [hg, if_false]
  have h4 : ¬cfg.refreshIntervalMs ≤ 0 := by omega
  simp only [h4, if_false]
  have hlive := cancelHandle_live_nil hinv
  have hnext := cancelHandle_nextId s
  cases firstDelay with
  | some d => simp [Sched.arm, startTimerKind, hlive, hnext]
  | none => simp [Sched.arm, startTimerKind, hlive, hnext]

theorem schedInv_startRefreshTimer {cfg : Config} {st : FocusIndicatorState}
    {firstDelay : Option Int} {s : Sched} (hinv : SchedInv s) :
    SchedInv (startRefreshTimer cfg st firstDelay s) := by
  by_cases hb : ¬cfg.pollingEnabled ∨ st = .disconnected ∨ cfg.refreshIntervalMs ≤ 0
  · obtain ⟨hl, -, -⟩ := @startRefreshTimer_blocked cfg st firstDelay s hinv hb
    constructor
    · simp [hl]
    · intro p hp
      rw [hl] at hp
      exact absurd hp (List.not_mem_nil p)
  · push_neg at hb
    obtain ⟨h1, h2, h3⟩ := hb
    rw [startRefreshTimer_armed hinv (by simpa using h1) h2 (by omega)]
    constructor
    · simp
    · intro p hp
      simp at hp
      simp [hp]

theorem clearRefreshTimer_live_nil {s : Sched} (h : SchedInv s) :
    (clearRefreshTimer s).live = [] := by
  unfold clearRefreshTimer
  cases hh : s.handle with
  | none =>
    simp only
    have := cancelHandle_live_nil h
    unfold Sched.cancelHandle at this
    rw [hh] at this
    exact this
  | some v =>
    simp only
    exact cancelHandle_live_nil h

theorem clearRefreshTimer_handle_none (s : Sched) :
    (clearRefreshTimer s).handle = none := by
  unfold clearRefreshTimer
  cases hh : s.handle with
  | none => simp [hh]
  | some v => simp

theorem schedInv_clearRefreshTimer {s : Sched} (h : SchedInv s) :
    SchedInv (clearRefreshTimer s) := by
  constructor
  · simp [clearRefreshTimer_live_nil h]
  · intro p hp
    rw [clearRefreshTimer_live_nil h] at hp
    exact absurd hp (List.not_mem_nil p)

theorem clearRefreshTimer_idem (s : Sched) :
    clearRefreshTimer (clearRefreshTimer s) = clearRefreshTimer s := by
  unfold clearRefreshTimer Sched.cancelHandle
  cases hh : s.handle <;> simp [hh]

theorem sendTelemetryFirstLoadEvent_fields (telemetryEnabled : Bool) (s : Indicator) :
    (sendTelemetryFirstLoadEvent telemetryEnabled s).statusBar = s.statusBar ∧
    (sendTelemetryFirstLoadEvent telemetryEnabled s).sched = s.sched ∧
    (sendTelemetryFirstLoadEvent telemetryEnabled s).state = s.state ∧
    (sendTelemetryFirstLoadEvent telemetryEnabled s).lastDataUpdate = s.lastDataUpdate ∧
    (sendTelemetryFirstLoadEvent telemetryEnabled s).lastRefreshPaused = s.lastRefreshPaused := by
  unfold sendTelemetryFirstLoadEvent
  split_ifs <;> simp

theorem updateStatusBarWithItems_eq {cfg : Config} {telemetryEnabled : Bool} {now : Int}
    {tooltip : String} {items : Option (List FocusItem)} {s : Indicator} {sb : StatusBarItem}
    (hsb : s.statusBar = some sb) :
    updateStatusBarWithItems cfg telemetryEnabled now tooltip items s =
      { sendTelemetryFirstLoadEvent telemetryEnabled s with
        lastDataUpdate := some now
        statusBar := some { sb with
          text := (renderLoad cfg tooltip items).1
          tooltip := (renderLoad cfg tooltip items).2.1
          color := if cfg.useColors then (renderLoad cfg tooltip items).2.2 else none } } := by
  unfold updateStatusBarWithItems
  rw [hsb]

theorem updateStatusBarWithItems_frame {cfg : Config} {telemetryEnabled : Bool} {now : Int}
    {tooltip : String} {items : Option (List FocusItem)} {s : Indicator} {sb : StatusBarItem}
    (hsb : s.statusBar = some sb) :
    (updateStatusBarWithItems cfg telemetryEnabled now tooltip items s).sched = s.sched ∧
    (updateStatusBarWithItems cfg telemetryEnabled now tooltip items s).state = s.state ∧
    (updateStatusBarWithItems cfg telemetryEnabled now tooltip items s).lastRefreshPaused =
      s.lastRefreshPaused ∧
    (updateStatusBarWithItems cfg telemetryEnabled now tooltip items s).lastDataUpdate =
      some now := by
  rw [updateStatusBarWithItems_eq hsb]
  obtain ⟨-, h2, h3, -, h5⟩ := sendTelemetryFirstLoadEvent_fields telemetryEnabled s
  exact ⟨h2, h3, h5, rfl⟩

theorem updateStatusBar_none {cfg : Config} {telemetryEnabled : Bool} {now : Int}
    {state : FocusIndicatorState} {items : Option (List FocusItem)} {s : Indicator}
    (hsb : s.statusBar = none) :
    updateStatusBar cfg telemetryEnabled now state items s = s := by
  unfold updateStatusBar
  rw [hsb]

theorem updateStatusBar_same {cfg : Config} {telemetryEnabled : Bool} {now : Int}
    {state : FocusIndicatorState} {items : Option (List FocusItem)} {s : Indicator}
    {sb : StatusBarItem} (hsb : s.statusBar = some sb)
    (h : state = s.state ∧ state ≠ .load) :
    updateStatusBar cfg telemetryEnabled now state items s = s := by
  unfold updateStatusBar
  rw [hsb]
  dsimp only
  exact if_pos h

theorem updateStatusBar_state {cfg : Config} {telemetryEnabled : Bool} {now : Int}
    {state : FocusIndicatorState} {items : Option (List FocusItem)} {s : Indicator}
    {sb : StatusBarItem} (hsb : s.statusBar = some sb) :
    (updateStatusBar cfg telemetryEnabled now state items s).state = state := by
  unfold updateStatusBar
  rw [hsb]
  dsimp only
  by_cases h : state = s.state ∧ state ≠ .load
  · rw [if_pos h]
    exact h.1.symm
  · rw [if_neg h]
    cases state with
    | idle => rfl
    | disconnected => rfl
    | loading => rfl
    | load =>
      dsimp only
      exact (updateStatusBarWithItems_frame rfl).2.1

/-- The scheduler after `updateStatusBar`, by target state (when the status bar
exists and the transition is not filtered out). -/
theorem updateStatusBar_sched {cfg : Config} {telemetryEnabled : Bool} {now : Int}
    {state : FocusIndicatorState} {items : Option (List FocusItem)} {s : Indicator}
    {sb : StatusBarItem} (hsb : s.statusBar = some sb)
    (h : ¬(state = s.state ∧ state ≠ .load)) :
    (updateStatusBar cfg telemetryEnabled now state items s).sched =
      (match state with
        | .idle => clearRefreshTimer s.sched
        | .disconnected => clearRefreshTimer s.sched
        | .loading => startRefreshTimer cfg .loading (some 5000) s.sched
        | .load => s.sched) := by
  unfold updateStatusBar
  rw [hsb]
  dsimp only
  rw [if_neg h]
  cases state with
  | idle => rfl
  | disconnected => rfl
  | loading => rfl
  | load =>
    dsimp only
    exact (updateStatusBarWithItems_frame rfl).1

theorem indInv_updateStatusBar {cfg : Config} {telemetryEnabled : Bool} {now : Int}
    {state : FocusIndicatorState} {items : Option (List FocusItem)} {s : Indicator}
    (h : IndInv s) : IndInv (updateStatusBar cfg telemetryEnabled now state items s) := by
  cases hsb : s.statusBar with
  | none => rw [updateStatusBar_none hsb]; exact h
  | some sb =>
    by_cases hg : state = s.state ∧ state ≠ .load
    · rw [updateStatusBar_same hsb hg]; exact h
    · have hsched := @updateStatusBar_sched cfg telemetryEnabled now state items s sb hsb hg
      have hstate := @updateStatusBar_state cfg telemetryEnabled now state items s sb hsb
      constructor
      · rw [hsched]
        cases state with
        | idle => exact schedInv_clearRefreshTimer h.1
        | disconnected => exact schedInv_clearRefreshTimer h.1
        | loading => exact schedInv_startRefreshTimer h.1
        | load => exact h.1
      · intro hd
        rw [hstate] at hd
        subst hd
        rw [hsched]
        exact ⟨clearRefreshTimer_handle_none s.sched, clearRefreshTimer_live_nil h.1⟩

theorem updateStatusBarCommand_fields (cfg : Config) (s : Indicator) :
    (updateStatusBarCommand cfg s).sched = s.sched ∧
    (updateStatusBarCommand cfg s).state = s.state ∧
    (updateStatusBarCommand cfg s).lastDataUpdate = s.lastDataUpdate ∧
    (updateStatusBarCommand cfg s).lastRefreshPaused = s.lastRefreshPaused := by
  unfold updateStatusBarCommand
  cases hsb : s.statusBar <;> simp

theorem indInv_updateStatusBarCommand {cfg : Config} {s : Indicator} (h : IndInv s) :
    IndInv (updateStatusBarCommand cfg s) := by
  obtain ⟨h1, h2, -, -⟩ := updateStatusBarCommand_fields cfg s
  constructor
  · rw [h1]; exact h.1
  · intro hd
    rw [h2] at hd
    rw [h1]
    exact h.2 hd

theorem indInv_maybeLoadData {cfg : Config} {hasConnected telemetryEnabled : Bool} {now : Int}
    {s : Indicator} (h : IndInv s) :
    IndInv (maybeLoadData cfg hasConnected telemetryEnabled now s) := by
  unfold maybeLoadData
  split_ifs <;> exact indInv_updateStatusBar h

theorem indInv_onFocusRefreshed {cfg : Config} {telemetryEnabled : Bool} {now : Int}
    {items : List FocusItem} {s : Indicator} (h : IndInv s) :
    IndInv (onFocusRefreshed cfg telemetryEnabled now items s) := by
  unfold onFocusRefreshed
  split_ifs with h1
  · exact h
  · exact indInv_updateStatusBar h

theorem indInv_onWindowStateChanged {cfg : Config} {now : Int} {f : Bool} {s : Indicator}
    (h : IndInv s) : IndInv (onWindowStateChanged cfg now f s) := by
  unfold onWindowStateChanged
  by_cases h1 : s.state = .disconnected ∨ s.state = .idle
  · rw [if_pos h1]; exact h
  · rw [if_neg h1]
    by_cases h2 : ¬f
    · rw [if_pos h2]
      refine ⟨schedInv_clearRefreshTimer h.1, fun hd => absurd (Or.inl hd) h1⟩
    · rw [if_neg h2]
      cases hp : s.lastRefreshPaused with
      | none => exact h
      | some pausedAt =>
        dsimp only
        by_cases h3 : s.state = .loading
        · rw [if_pos h3]
          refine ⟨schedInv_startRefreshTimer h.1, fun hd => absurd (Or.inl hd) h1⟩
        · rw [if_neg h3]
          refine ⟨schedInv_startRefreshTimer h.1, fun hd => absurd (Or.inl hd) h1⟩

theorem indInv_startOnly {cfg : Config} {s : Indicator} (h : IndInv s) :
    IndInv { s with sched := startRefreshTimer cfg s.state none s.sched } := by
  refine ⟨schedInv_startRefreshTimer h.1, ?_⟩
  intro hd
  dsimp only at hd ⊢
  obtain ⟨hh, -⟩ := h.2 hd
  have hb := @startRefreshTimer_blocked cfg s.state none s.sched h.1 (Or.inr (Or.inl hd))
  exact ⟨hb.2.1.trans hh, hb.1⟩

theorem indInv_configPollingStep {e : ConfigChange} {hasConnected telemetryEnabled : Bool}
    {now : Int} {s1 : Indicator} (h : IndInv s1) :
    IndInv (configPollingStep e hasConnected telemetryEnabled now s1).1 := by
  unfold configPollingStep
  split_ifs
  · exact indInv_maybeLoadData h
  · exact indInv_startOnly h
  · exact h
  · exact h

theorem indInv_onConfigurationChanged {e : ConfigChange} {hasConnected telemetryEnabled : Bool}
    {now : Int} {s : Indicator} (h : IndInv s) :
    IndInv (onConfigurationChanged e hasConnected telemetryEnabled now s) := by
  unfold onConfigurationChanged
  by_cases h0 : ¬e.indicatorChanged
  · rw [if_pos h0]; exact h
  · rw [if_neg h0]
    dsimp only
    have h1 : IndInv (if e.openInEditorChanged then updateStatusBarCommand e.newCfg s else s) := by
      split_ifs
      · exact indInv_updateStatusBarCommand h
      · exact h
    have h2 := @indInv_configPollingStep e hasConnected telemetryEnabled now
      (if e.openInEditorChanged then updateStatusBarCommand e.newCfg s else s) h1
    set p := configPollingStep e hasConnected telemetryEnabled now
      (if e.openInEditorChanged then updateStatusBarCommand e.newCfg s else s) with hp
    unfold configRenderStep
    split_ifs
    · exact indInv_updateStatusBarCommand (indInv_maybeLoadData h2)
    · exact indInv_maybeLoadData h2
    · exact h2

theorem indInv_initIndicator (cfg : Config) (hasConnected telemetryEnabled storedHasLoaded : Bool)
    (now : Int) : IndInv (initIndicator cfg hasConnected telemetryEnabled storedHasLoaded now) := by
  have hbase : ∀ sb : Option StatusBarItem, IndInv
      { statusBar := sb
        sched := Sched.initial
        state := .idle
        lastDataUpdate := none
        lastRefreshPaused := none
        hasLoadedStored := storedHasLoaded
        telemetrySent := 0 } :=
    fun sb => ⟨schedInv_initial, fun hd => FocusIndicatorState.noConfusion hd⟩
  unfold initIndicator
  dsimp only
  split_ifs
  all_goals
    first
      | exact hbase none
      | exact indInv_updateStatusBarCommand (indInv_maybeLoadData (hbase (some initialStatusBarItem)))

theorem indInv_stepWorld {w : World} (ev : Ev) (h : IndInv w.ind) :
    IndInv (stepWorld w ev).ind := by
  cases ev with
  | configChange e c now => exact indInv_onConfigurationChanged h
  | connChange sup c now =>
    dsimp only [stepWorld, onConnectedIntegrationsChanged]
    split_ifs
    · exact indInv_maybeLoadData h
    · exact h
  | focusChange f now => exact indInv_onWindowStateChanged h
  | refreshEv items now => exact indInv_onFocusRefreshed h

theorem reachable_indInv {w : World} (h : Reachable w) : IndInv w.ind := by
  induction h with
  | init cfg c tel stored now => exact indInv_initIndicator cfg c tel stored now
  | step w ev hw ih => exact indInv_stepWorld ev ih

/- Claim theorems. -/

/-- C3 counterexample: with polling disabled, a `startRefreshTimer()` call on a
scheduler holding a live timer is not a no-op — the cancellation at the top of
the method runs before the guards, so the live timer is cancelled (though no
new one is armed). -/
theorem startRefreshTimer_disabled_cancels :
    startRefreshTimer cfgPollOff .load none schedWithTimer ≠ schedWithTimer ∧
    schedWithTimer.live ≠ [] ∧
    (startRefreshTimer cfgPollOff .load none schedWithTimer).live = [] := by
  refine ⟨?_, ?_, ?_⟩ <;> decide

/-- C3 (amended): `startRefreshTimer(firstDelay?)` arms no timer and leaves no
timer live when polling is disabled, the state is `disconnected`, or the
configured interval is non-positive (it still cancels any previously live
timer first, leaving the stored handle untouched); otherwise it cancels any
existing timer and arms exactly one fresh timer — a one-shot when a first
delay is given, a repeating one otherwise. -/
theorem startRefreshTimer_guards (cfg : Config) (st : FocusIndicatorState)
    (firstDelay : Option Int) (s : Sched) (hinv : SchedInv s) :
    ((¬cfg.pollingEnabled ∨ st = .disconnected ∨ cfg.refreshIntervalMs ≤ 0) →
      (startRefreshTimer cfg st firstDelay s).live = [] ∧
      (startRefreshTimer cfg st firstDelay s).handle = s.handle) ∧
    ((cfg.pollingEnabled ∧ st ≠ .disconnected ∧ 0 < cfg.refreshIntervalMs) →
      startRefreshTimer cfg st firstDelay s =
        { nextId := s.nextId + 1
          live := [(s.nextId, startTimerKind cfg firstDelay)]
          handle := some s.nextId }) := by
  constructor
  · intro hb
    obtain ⟨a, b, -⟩ := @startRefreshTimer_blocked cfg st firstDelay s hinv hb
    exact ⟨a, b⟩
  · rintro ⟨h1, h2, h3⟩
    exact startRefreshTimer_armed hinv h1 h2 h3

/-- C3 witness: both guard directions at concrete inputs. -/
theorem startRefreshTimer_guards_witness :
    SchedInv schedWithTimer ∧
    (startRefreshTimer cfgPollOff .load none schedWithTimer).live = [] ∧
    startRefreshTimer cfgPollOnInt1 .load (some 250) schedWithTimer =
      { nextId := 6, live := [(5, .timeout 250)], handle := some 5 } := by
  refine ⟨by decide, ?_, ?_⟩
  · exact ((startRefreshTimer_guards cfgPollOff .load none schedWithTimer (by decide)).1
      (by decide)).1
  · exact (startRefreshTimer_guards cfgPollOnInt1 .load (some 250) schedWithTimer (by decide)).2
      ⟨by decide, by decide, by decide⟩

/-- C4: starting the scheduler preserves the single-timer invariant (at most
one live timer, matching the stored handle), so two consecutive `start` calls
leave at most one live timer, and `stop` (`clearRefreshTimer`) is idempotent. -/
theorem scheduler_single_timer (cfg cfg2 : Config) (st st2 : FocusIndicatorState)
    (d d2 : Option Int) (s : Sched) (hinv : SchedInv s) :
    SchedInv (startRefreshTimer cfg st d s) ∧
    (startRefreshTimer cfg st d s).live.length ≤ 1 ∧
    (startRefreshTimer cfg2 st2 d2 (startRefreshTimer cfg st d s)).live.length ≤ 1 ∧
    SchedInv (clearRefreshTimer s) ∧
    clearRefreshTimer (clearRefreshTimer s) = clearRefreshTimer s := by
  refine ⟨schedInv_startRefreshTimer hinv, (schedInv_startRefreshTimer hinv).1,
    (schedInv_startRefreshTimer (schedInv_startRefreshTimer hinv)).1,
    schedInv_clearRefreshTimer hinv, clearRefreshTimer_idem s⟩

/-- C4 witness: two consecutive `start` calls on a scheduler with a live timer
leave at most one live timer. -/
theorem scheduler_single_timer_witness :
    SchedInv schedWithTimer ∧
    (startRefreshTimer cfgPollOnInt1 .load none
      (startRefreshTimer cfgPollOnInt1 .loading (some 5000) schedWithTimer)).live.length ≤ 1 :=
  ⟨by decide,
    (scheduler_single_timer cfgPollOnInt1 cfgPollOnInt1 .loading .load (some 5000) none
      schedWithTimer (by decide)).2.2.1⟩

/-- C5 counterexample: from a reachable `idle` world (indicator shown, polling
enabled, interval 0), a configuration change touching only the polling
interval (0 → 1 minute) calls `startRefreshTimer()` directly and arms a
repeating timer while the state remains `idle` — so the timer handle is not
non-null only in `loading`/`load`. -/
theorem idle_interval_change_arms_timer :
    Reachable (stepWorld worldIdleInt0 evIntervalChange) ∧
    (stepWorld worldIdleInt0 evIntervalChange).ind.state = .idle ∧
    (stepWorld worldIdleInt0 evIntervalChange).ind.sched.handle = some 0 ∧
    (stepWorld worldIdleInt0 evIntervalChange).ind.sched.live =
      [(0, .interval 60000)] := by
  refine ⟨Reachable.step worldIdleInt0 evIntervalChange
    (Reachable.init cfgPollOnInt0 false false false 0), ?_, ?_, ?_⟩ <;> decide

/-- C5 (amended): in every reachable world, a `disconnected` indicator keeps
no timer: its handle is null and no timer of it is live.  (The handle can be
non-null in `loading` and `load`; it can also be non-null in `idle` after a
polling-interval-only configuration change, see the counterexample.) -/
theorem reachable_disconnected_no_timer {w : World} (h : Reachable w)
    (hd : w.ind.state = .disconnected) :
    w.ind.sched.handle = none ∧ w.ind.sched.live = [] :=
  (reachable_indInv h).2 hd

/-- C5 witness: a freshly constructed indicator with polling enabled and no
connected integration is `disconnected` and holds no timer. -/
theorem reachable_disconnected_no_timer_witness :
    (initIndicator cfgPollOnInt1 false false false 0).sched.handle = none ∧
    (initIndicator cfgPollOnInt1 false false false 0).sched.live = [] :=
  reachable_disconnected_no_timer (Reachable.init cfgPollOnInt1 false false false 0)
    (by decide)

theorem clearRefreshTimer_nextId (s : Sched) : (clearRefreshTimer s).nextId = s.nextId := by
  unfold clearRefreshTimer
  cases hh : s.handle with
  | none => rfl
  | some v => simp [Sched.cancelHandle, hh]

/-- Unfocusing while the state is neither `disconnected` nor `idle` clears the
timer and records the pause time (source lines 154-159). -/
theorem onWindowStateChanged_unfocus {cfg : Config} {now : Int} {s : Indicator}
    (h1 : ¬(s.state = .disconnected ∨ s.state = .idle)) :
    onWindowStateChanged cfg now false s =
      { s with sched := clearRefreshTimer s.sched, lastRefreshPaused := some now } := by
  unfold onWindowStateChanged
  rw [if_neg h1, if_pos (by decide)]

/-- The converter between the source's clamping pattern and `max`. -/
theorem ite_neg_clamp (a : Int) : (if a < 0 then 0 else a) = max 0 a := by
  rw [Int.max_def]
  split_ifs <;> omega

/-- Refocusing in state `load` with a recorded pause and a recorded last data
update rearms with the compensated one-shot delay and clears the pause
(source lines 168-181). -/
theorem refocus_load_upd_eq {cfg : Config} {now p u : Int} {s : Indicator}
    (hstate : s.state = .load) (hp : s.lastRefreshPaused = some p)
    (hupd : s.lastDataUpdate = some u) :
    onWindowStateChanged cfg now true s =
      { s with
        lastRefreshPaused := none
        sched := startRefreshTimer cfg s.state
          (some (max 0 (max 0 (cfg.refreshIntervalMs - (now - u)) - (now - p)))) s.sched } := by
  unfold onWindowStateChanged
  rw [if_neg (show ¬(s.state = .disconnected ∨ s.state = .idle) by simp [hstate]),
    if_neg (by decide), hp]
  dsimp only
  rw [if_neg (show ¬(s.state = .loading) by simp [hstate]), hupd]
  simp only [Option.map_some']
  simp only [ite_neg_clamp]

/-- Refocusing in state `load` with a recorded pause but no recorded data
update uses the full configured interval as the time to the next poll
(source lines 168-181, the `undefined` branch of `timeSinceLastUpdate`). -/
theorem refocus_load_noupd_eq {cfg : Config} {now p : Int} {s : Indicator}
    (hstate : s.state = .load) (hp : s.lastRefreshPaused = some p)
    (hupd : s.lastDataUpdate = none) :
    onWindowStateChanged cfg now true s =
      { s with
        lastRefreshPaused := none
        sched := startRefreshTimer cfg s.state
          (some (max 0 (max 0 cfg.refreshIntervalMs - (now - p)))) s.sched } := by
  unfold onWindowStateChanged
  rw [if_neg (show ¬(s.state = .disconnected ∨ s.state = .idle) by simp [hstate]),
    if_neg (by decide), hp]
  dsimp only
  rw [if_neg (show ¬(s.state = .loading) by simp [hstate]), hupd]
  simp only [Option.map_none']
  simp only [ite_neg_clamp]

/-- C1: after an unfocus at time `p` and a refocus at time `now` in state
`load`, with a recorded last data update `u`, no intervening data update,
polling enabled and a positive interval, the handler clears the pause-start
and arms a fresh one-shot timer with delay
`max 0 (max 0 (intervalMs - (now - u)) - (now - p))`. -/
theorem refocus_compensation (cfg : Config) (s : Indicator) (p u now : Int)
    (hstate : s.state = .load) (hupd : s.lastDataUpdate = some u) (hinv : SchedInv s.sched)
    (hen : cfg.pollingEnabled = true) (hpos : 0 < cfg.refreshIntervalMs) :
    (onWindowStateChanged cfg now true
        (onWindowStateChanged cfg p false s)).lastRefreshPaused = none ∧
    (onWindowStateChanged cfg now true (onWindowStateChanged cfg p false s)).sched.live =
      [(s.sched.nextId,
        .timeout (max 0 (max 0 (cfg.refreshIntervalMs - (now - u)) - (now - p))))] ∧
    (onWindowStateChanged cfg now true (onWindowStateChanged cfg p false s)).sched.handle =
      some s.sched.nextId := by
  rw [onWindowStateChanged_unfocus (by simp [hstate])]
  rw [@refocus_load_upd_eq cfg now p u
    { s with sched := clearRefreshTimer s.sched, lastRefreshPaused := some p }
    hstate rfl hupd]
  dsimp only
  rw [startRefreshTimer_armed (schedInv_clearRefreshTimer hinv) hen
    (by simp [hstate]) hpos]
  rw [clearRefreshTimer_nextId]
  exact ⟨rfl, rfl, rfl⟩

/-- C1 witness: the spec's own example — interval one minute, last update 50 s
before refocus, unfocused for 20 s: the compensated delay clamps to 0. -/
theorem refocus_compensation_witness :
    (onWindowStateChanged cfgPollOnInt1 100000 true
        (onWindowStateChanged cfgPollOnInt1 80000 false sLoadUpd)).lastRefreshPaused = none ∧
    (onWindowStateChanged cfgPollOnInt1 100000 true
        (onWindowStateChanged cfgPollOnInt1 80000 false sLoadUpd)).sched.live =
      [(5, .timeout 0)] ∧
    (onWindowStateChanged cfgPollOnInt1 100000 true
        (onWindowStateChanged cfgPollOnInt1 80000 false sLoadUpd)).sched.handle = some 5 := by
  obtain ⟨h1, h2, h3⟩ := refocus_compensation cfgPollOnInt1 sLoadUpd 80000 50000 100000
    rfl rfl (by decide) rfl (by decide)
  refine ⟨h1, ?_, h3⟩
  rw [h2]
  decide

/-- C7 counterexample: refocusing in `load` with no recorded data update is
not due immediately — with a one-minute interval and 5 s unfocused, the armed
one-shot delay is 55000 ms, not 0. -/
theorem refocus_never_updated_not_immediate :
    (onWindowStateChanged cfgPollOnInt1 5000 true
        (onWindowStateChanged cfgPollOnInt1 0 false sLoadNoUpd)).sched.live =
      [(0, .timeout 55000)] ∧ (55000 : Int) ≠ 0 := by
  constructor <;> decide

/-- C7 (amended): on refocus in state `load` with a recorded pause-start and
no recorded last data update (polling enabled, positive interval), the
compensator treats the time to the next poll as the full configured interval:
it arms a one-shot timer with delay `max 0 (intervalMs - (now - p))` and
clears the pause-start — so the refresh is due immediately only when the
window was unfocused for at least the full interval. -/
theorem refocus_never_updated (cfg : Config) (s : Indicator) (p now : Int)
    (hstate : s.state = .load) (hupd : s.lastDataUpdate = none) (hinv : SchedInv s.sched)
    (hen : cfg.pollingEnabled = true) (hpos : 0 < cfg.refreshIntervalMs) :
    (onWindowStateChanged cfg now true
        (onWindowStateChanged cfg p false s)).lastRefreshPaused = none ∧
    (onWindowStateChanged cfg now true (onWindowStateChanged cfg p false s)).sched.live =
      [(s.sched.nextId, .timeout (max 0 (cfg.refreshIntervalMs - (now - p))))] ∧
    (onWindowStateChanged cfg now true (onWindowStateChanged cfg p false s)).sched.handle =
      some s.sched.nextId := by
  rw [onWindowStateChanged_unfocus (by simp [hstate])]
  rw [@refocus_load_noupd_eq cfg now p
    { s with sched := clearRefreshTimer s.sched, lastRefreshPaused := some p }
    hstate rfl hupd]
  dsimp only
  rw [startRefreshTimer_armed (schedInv_clearRefreshTimer hinv) hen
    (by simp [hstate]) hpos]
  rw [clearRefreshTimer_nextId]
  rw [max_eq_right (le_of_lt hpos)]
  exact ⟨rfl, rfl, rfl⟩

/-- C7 witness: with a one-minute interval and 5 s unfocused, the delay is
`max 0 (60000 - 5000) = 55000`. -/
theorem refocus_never_updated_witness :
    (onWindowStateChanged cfgPollOnInt1 5000 true
        (onWindowStateChanged cfgPollOnInt1 0 false sLoadNoUpd)).lastRefreshPaused = none ∧
    (onWindowStateChanged cfgPollOnInt1 5000 true
        (onWindowStateChanged cfgPollOnInt1 0 false sLoadNoUpd)).sched.handle = some 0 := by
  obtain ⟨h1, -, h3⟩ := refocus_never_updated cfgPollOnInt1 sLoadNoUpd 0 5000
    rfl rfl (by decide) rfl (by decide)
  exact ⟨h1, h3⟩

/-- C6 counterexample: with polling enabled, a zero interval and a connected
integration, the recomputed state is `idle`, not `loading` as the claim (which
conditions only on the polling-enabled flag) would have it. -/
theorem maybeLoadData_interval_zero_idle :
    (maybeLoadData cfgPollOnInt0 true false 0 sLoadNoUpd).state = .idle ∧
    FocusIndicatorState.idle ≠ .loading := by
  constructor <;> decide

/-- C6 (amended): on startup or on a relevant configuration change (whenever
the status bar exists), the recomputed indicator state is `idle` if polling is
disabled or the configured interval is non-positive; otherwise `disconnected`
if no integration is connected; otherwise `loading`. -/
theorem maybeLoadData_state (cfg : Config) (hasConnected telemetryEnabled : Bool) (now : Int)
    (s : Indicator) (sb : StatusBarItem) (hsb : s.statusBar = some sb) :
    (maybeLoadData cfg hasConnected telemetryEnabled now s).state =
      (if ¬cfg.pollingEnabled ∨ cfg.pollingInterval ≤ 0 then FocusIndicatorState.idle
       else if ¬hasConnected then FocusIndicatorState.disconnected
       else FocusIndicatorState.loading) := by
  unfold maybeLoadData
  by_cases h1 : cfg.pollingEnabled ∧ cfg.pollingInterval > 0
  · rw [if_pos h1, if_neg (show ¬(¬cfg.pollingEnabled ∨ cfg.pollingInterval ≤ 0) by
      push_neg
      exact ⟨h1.1, by omega⟩)]
    by_cases hc : hasConnected = true
    · rw [if_pos hc, if_neg (by simp [hc])]
      exact updateStatusBar_state hsb
    · rw [if_neg hc, if_pos (by simp [hc])]
      exact updateStatusBar_state hsb
  · rw [if_neg h1, if_pos (by
      rcases not_and_or.mp h1 with h | h
      · exact Or.inl h
      · exact Or.inr (by omega))]
    exact updateStatusBar_state hsb

/-- C6 witness: polling enabled, one-minute interval, connected → `loading`. -/
theorem maybeLoadData_state_witness :
    (maybeLoadData cfgPollOnInt1 true false 0 sLoadNoUpd).state = .loading := by
  rw [maybeLoadData_state cfgPollOnInt1 true false 0 sLoadNoUpd initialStatusBarItem rfl]
  decide

/-- Re-rendering: the payload `updateStatusBar` writes is a function of the
configuration, the target state and the items only — the previous payload is
overwritten. -/
theorem updateStatusBar_payload {cfg : Config} {telemetryEnabled : Bool} {now : Int}
    {target : FocusIndicatorState} {items : Option (List FocusItem)} {s : Indicator}
    {sb : StatusBarItem} (hsb : s.statusBar = some sb)
    (hg : ¬(target = s.state ∧ target ≠ .load)) :
    (updateStatusBar cfg telemetryEnabled now target items s).statusBar.map
      StatusBarItem.payload = some (statusBarRenderPayload cfg target items) := by
  unfold updateStatusBar
  rw [hsb]
  dsimp only
  rw [if_neg hg]
  cases target with
  | idle => simp [StatusBarItem.payload, statusBarRenderPayload]
  | disconnected => simp [StatusBarItem.payload, statusBarRenderPayload]
  | loading => simp [StatusBarItem.payload, statusBarRenderPayload]
  | load =>
    rw [updateStatusBarWithItems_eq rfl]
    simp [StatusBarItem.payload, statusBarRenderPayload]

/-- C2 counterexample: a transition into `load` does not (re)arm the
scheduler — from `loading` with no live timer, `updateStatusBar('load', …)`
leaves the scheduler empty. -/
theorem load_transition_does_not_arm :
    (updateStatusBar cfgPollOnInt1 false 0 .load (some []) sLoadingNoTimer).state = .load ∧
    (updateStatusBar cfgPollOnInt1 false 0 .load (some []) sLoadingNoTimer).sched.live = [] ∧
    (updateStatusBar cfgPollOnInt1 false 0 .load (some []) sLoadingNoTimer).sched.handle =
      none := by
  refine ⟨?_, ?_, ?_⟩ <;> decide

/-- C2 (amended): every transition performed by `updateStatusBar` (status bar
present, not filtered as a same-state no-op) sets the new state and overwrites
the render payload with one determined by (configuration, state, items); a
transition into `idle` or `disconnected` tears the scheduler down; a
transition into `loading` arms a one-shot 5000 ms timer (when polling is
enabled and the interval positive); a transition into `load` leaves the
scheduler untouched. -/
theorem updateStatusBar_transition (cfg : Config) (telemetryEnabled : Bool) (now : Int)
    (target : FocusIndicatorState) (items : Option (List FocusItem)) (s : Indicator)
    (sb : StatusBarItem) (hsb : s.statusBar = some sb)
    (hg : ¬(target = s.state ∧ target ≠ .load)) (hinv : SchedInv s.sched) :
    (updateStatusBar cfg telemetryEnabled now target items s).state = target ∧
    (updateStatusBar cfg telemetryEnabled now target items s).statusBar.map
      StatusBarItem.payload = some (statusBarRenderPayload cfg target items) ∧
    ((target = .idle ∨ target = .disconnected) →
      (updateStatusBar cfg telemetryEnabled now target items s).sched.handle = none ∧
      (updateStatusBar cfg telemetryEnabled now target items s).sched.live = []) ∧
    (target = .loading → cfg.pollingEnabled = true → 0 < cfg.refreshIntervalMs →
      (updateStatusBar cfg telemetryEnabled now target items s).sched.live =
        [(s.sched.nextId, .timeout 5000)] ∧
      (updateStatusBar cfg telemetryEnabled now target items s).sched.handle =
        some s.sched.nextId) ∧
    (target = .load →
      (updateStatusBar cfg telemetryEnabled now target items s).sched = s.sched) := by
  have hsched := @updateStatusBar_sched cfg telemetryEnabled now target items s sb hsb hg
  refine ⟨updateStatusBar_state hsb, updateStatusBar_payload hsb hg, ?_, ?_, ?_⟩
  · rintro (h | h) <;> subst h <;> rw [hsched] <;>
      exact ⟨clearRefreshTimer_handle_none s.sched, clearRefreshTimer_live_nil hinv⟩
  · rintro rfl hen hpos
    rw [hsched]
    dsimp only
    rw [startRefreshTimer_armed hinv hen (by decide) hpos]
    exact ⟨rfl, rfl⟩
  · rintro rfl
    rw [hsched]

/-- C2 witness: a `loading` transition arms the 5000 ms one-shot timer. -/
theorem updateStatusBar_transition_witness :
    (updateStatusBar cfgPollOnInt1 false 0 .loading none sLoadNoUpd).sched.live =
      [(0, .timeout 5000)] ∧
    (updateStatusBar cfgPollOnInt1 false 0 .loading none sLoadNoUpd).state = .loading := by
  obtain ⟨h1, -, -, h4, -⟩ := updateStatusBar_transition cfgPollOnInt1 false 0 .loading none
    sLoadNoUpd initialStatusBarItem rfl (by decide) (by decide)
  exact ⟨(h4 rfl rfl (by decide)).1, h1⟩

/-- C8: rendering the `load` state with zero grouped items appends the
"all caught up" message to the tooltip; with `N ≠ 0` grouped items none of
which falls in a configured group, it appends the no-attention-needed message
reporting exactly `N` other pull requests. -/
theorem load_render_empty_messages (cfg : Config) (telemetryEnabled : Bool) (now : Int)
    (tooltip : String) (items : Option (List FocusItem)) (s : Indicator) (sb : StatusBarItem)
    (hsb : s.statusBar = some sb) :
    (totalGroupedItems items = 0 →
      (updateStatusBarWithItems cfg telemetryEnabled now tooltip items s).statusBar.map
        (fun b => b.tooltip) = some (tooltip ++ "You are all caught up!")) ∧
    (∀ N : Nat, totalGroupedItems items = N → N ≠ 0 →
      (∀ g ∈ cfg.groupsCfg.getD [],
        (groupedGet (groupAndSortFocusItems items) g).getD [] = []) →
      (updateStatusBarWithItems cfg telemetryEnabled now tooltip items s).statusBar.map
        (fun b => b.tooltip) =
        some (tooltip ++ "No pull requests need your attention\\\n(" ++ toString N ++
          " other pull requests)")) := by
  constructor
  · intro h0
    rw [updateStatusBarWithItems_eq hsb]
    dsimp only
    unfold renderLoad
    dsimp only
    rw [if_pos h0]
    rfl
  · intro N hN hNne hempty
    rw [updateStatusBarWithItems_eq hsb]
    dsimp only
    unfold renderLoad
    dsimp only
    rw [if_neg (show ¬totalGroupedItems items = 0 by rw [hN]; exact hNne)]
    have himp : ¬((cfg.groupsCfg.getD []).any (fun g =>
        ((groupedGet (groupAndSortFocusItems items) g).getD []).length ≠ 0) = true) := by
      intro hcontra
      rw [List.any_eq_true] at hcontra
      obtain ⟨g, hg, hgt⟩ := hcontra
      have hlen := of_decide_eq_true hgt
      rw [hempty g hg] at hlen
      exact hlen rfl
    rw [if_pos himp, hN]
    rfl

/-- C8 witness: both branches at concrete inputs — an empty item list, and a
single item in group `mergeable` with no groups configured. -/
theorem load_render_empty_messages_witness :
    (updateStatusBarWithItems cfgPollOnInt1 false 0 "H" (some []) sLoadNoUpd).statusBar.map
      (fun b => b.tooltip) = some ("H" ++ "You are all caught up!") ∧
    (updateStatusBarWithItems cfgPollOnInt1 false 0 "H"
        (some [⟨"1", .mergeable, "", none⟩]) sLoadNoUpd).statusBar.map
      (fun b => b.tooltip) =
      some ("H" ++ "No pull requests need your attention\\\n(" ++ toString 1 ++
        " other pull requests)") := by
  constructor
  · exact (load_render_empty_messages cfgPollOnInt1 false 0 "H" (some []) sLoadNoUpd
      initialStatusBarItem rfl).1 (by decide)
  · exact (load_render_empty_messages cfgPollOnInt1 false 0 "H"
      (some [⟨"1", .mergeable, "", none⟩]) sLoadNoUpd initialStatusBarItem rfl).2 1
      (by decide) (by decide) (by decide)

/-- C9 counterexample: the `load` renderer is not free of further side
effects — it records the data-update timestamp, persists the first-load flag
and sends a telemetry event. -/
theorem render_updates_component_state :
    (updateStatusBarWithItems cfgPollOnInt1 true 42 "H" (some []) sLoadNoUpd).lastDataUpdate =
      some 42 ∧
    sLoadNoUpd.lastDataUpdate = none ∧
    (updateStatusBarWithItems cfgPollOnInt1 true 42 "H" (some []) sLoadNoUpd).hasLoadedStored =
      true ∧
    sLoadNoUpd.hasLoadedStored = false ∧
    (updateStatusBarWithItems cfgPollOnInt1 true 42 "H" (some []) sLoadNoUpd).telemetrySent =
      1 ∧
    sLoadNoUpd.telemetrySent = 0 := by
  refine ⟨?_, ?_, ?_, ?_, ?_, ?_⟩ <;> decide

/-- C9 (amended): the `load` renderer's payload is deterministic — it depends
only on (configuration, tooltip prefix, items), not on the clock, the
telemetry switch or any other component state — and the indicator state, the
scheduler and the pause timestamp are left unchanged; but it does update the
last-data-update timestamp (and possibly the first-load flag and telemetry). -/
theorem updateStatusBarWithItems_pure (cfg : Config) (tel1 tel2 : Bool) (now1 now2 : Int)
    (tooltip : String) (items : Option (List FocusItem)) (s1 s2 : Indicator)
    (sb1 sb2 : StatusBarItem) (h1 : s1.statusBar = some sb1) (h2 : s2.statusBar = some sb2) :
    (updateStatusBarWithItems cfg tel1 now1 tooltip items s1).statusBar.map
      StatusBarItem.payload =
      (updateStatusBarWithItems cfg tel2 now2 tooltip items s2).statusBar.map
        StatusBarItem.payload ∧
    (updateStatusBarWithItems cfg tel1 now1 tooltip items s1).state = s1.state ∧
    (updateStatusBarWithItems cfg tel1 now1 tooltip items s1).sched = s1.sched ∧
    (updateStatusBarWithItems cfg tel1 now1 tooltip items s1).lastRefreshPaused =
      s1.lastRefreshPaused ∧
    (updateStatusBarWithItems cfg tel1 now1 tooltip items s1).lastDataUpdate = some now1 := by
  obtain ⟨a, b, c, d⟩ := updateStatusBarWithItems_frame h1
  refine ⟨?_, b, a, c, d⟩
  rw [updateStatusBarWithItems_eq h1, updateStatusBarWithItems_eq h2]
  rfl

/-- C9 witness: two renders from different component states, clocks and
telemetry switches produce the same payload. -/
theorem updateStatusBarWithItems_pure_witness :
    (updateStatusBarWithItems cfgPollOnInt1 true 42 "H" (some []) sLoadNoUpd).statusBar.map
      StatusBarItem.payload =
      (updateStatusBarWithItems cfgPollOnInt1 false 7 "H" (some []) sLoadUpd).statusBar.map
        StatusBarItem.payload :=
  (updateStatusBarWithItems_pure cfgPollOnInt1 true false 42 7 "H" (some []) sLoadNoUpd
    sLoadUpd initialStatusBarItem initialStatusBarItem rfl rfl).1

theorem isHosted_preserves_any (env : HomeEnv) (force : Bool) (s : HomeState) :
    (isHostedIntegrationConnected env force s).2.anyConnectedCache = s.anyConnectedCache := by
  unfold isHostedIntegrationConnected
  cases hc : s.hostedConnectedCache <;> cases force <;> simp

theorem notify_preserves_any (env : HomeEnv) (s : HomeState) :
    (notifyDidChangeOnboardingIntegration env s).anyConnectedCache = s.anyConnectedCache := by
  unfold notifyDidChangeOnboardingIntegration
  rw [isHosted_preserves_any, isHosted_preserves_any]

theorem isAny_cached (env : HomeEnv) (s : HomeState) (v : Bool)
    (h : s.anyConnectedCache = some v) :
    isAnyIntegrationConnected env false s = (v, s) := by
  unfold isAnyIntegrationConnected
  rw [h]

theorem isAny_fresh (env : HomeEnv) (s : HomeState) (h : s.anyConnectedCache = none) :
    isAnyIntegrationConnected env false s =
      (anyConnectedNow env, { s with anyConnectedCache := some (anyConnectedNow env) }) := by
  unfold isAnyIntegrationConnected anyConnectedNow
  rw [h]

theorem getState_cached (env : HomeEnv) (s : HomeState) (v : Bool)
    (h : s.anyConnectedCache = some v) :
    (getState env s).1.hasAnyIntegrationConnected = v ∧
    (getState env s).2.anyConnectedCache = some v := by
  unfold getState
  dsimp only
  have h2 : ((isHostedIntegrationConnected env false
      (isHostedIntegrationConnected env false s).2).2).anyConnectedCache = some v := by
    rw [isHosted_preserves_any, isHosted_preserves_any]
    exact h
  rw [isAny_cached env _ v h2]
  exact ⟨rfl, h2⟩

theorem stepHome_preserves_any (s : HomeState) (v : Bool) (ev : HomeEv)
    (h : s.anyConnectedCache = some v) : (stepHome s ev).anyConnectedCache = some v := by
  cases ev with
  | getStateEv env => exact (getState_cached env s v h).2
  | connChangeEv env key =>
    dsimp only [stepHome]
    split_ifs
    · rw [notify_preserves_any, notify_preserves_any]
      exact h
    · rw [notify_preserves_any]
      exact h
  | usageChangeEv env relevant =>
    dsimp only [stepHome]
    rw [isHosted_preserves_any]
    split_ifs
    · rw [notify_preserves_any]
      exact h
    · exact h
  | reloadedEv env =>
    dsimp only [stepHome]
    rw [notify_preserves_any, isHosted_preserves_any]
    exact h

/-- C10: the home webview's any-integration-connected flag is computed at most
once.  The first `getState` computes it from the currently connected hosting
and issues integrations and caches it; every call on a filled cache returns
the cached value and leaves the cache unchanged; and no event the provider
handles (further `getState`s, connection changes — which force-refresh only
the other, repo-host cache —, usage changes, reloads) ever changes the cache. -/
theorem anyIntegrationConnected_cached_once :
    (∀ (env : HomeEnv) (s : HomeState), s.anyConnectedCache = none →
      (getState env s).1.hasAnyIntegrationConnected = anyConnectedNow env ∧
      (getState env s).2.anyConnectedCache = some (anyConnectedNow env)) ∧
    (∀ (env : HomeEnv) (s : HomeState) (v : Bool), s.anyConnectedCache = some v →
      (getState env s).1.hasAnyIntegrationConnected = v ∧
      (getState env s).2.anyConnectedCache = some v) ∧
    (∀ (s : HomeState) (v : Bool) (evs : List HomeEv), s.anyConnectedCache = some v →
      (evs.foldl stepHome s).anyConnectedCache = some v) := by
  refine ⟨?_, ?_, ?_⟩
  · intro env s h
    unfold getState
    dsimp only
    have h2 : ((isHostedIntegrationConnected env false
        (isHostedIntegrationConnected env false s).2).2).anyConnectedCache = none := by
      rw [isHosted_preserves_any, isHosted_preserves_any]
      exact h
    rw [isAny_fresh env _ h2]
    exact ⟨rfl, rfl⟩
  · intro env s v h
    exact getState_cached env s v h
  · intro s v evs
    induction evs generalizing s with
    | nil => exact fun h => h
    | cons e t ih => exact fun h => ih _ (stepHome_preserves_any s v e h)

/-- C10 witness: after a first `getState` with GitHub connected, a later
`getState` with nothing connected still reports `true` — the first cached
value. -/
theorem anyIntegrationConnected_cached_once_witness :
    (getState envEmpty (getState envGitHub homeInit).2).1.hasAnyIntegrationConnected = true := by
  have h := anyIntegrationConnected_cached_once
  have h1 := h.1 envGitHub homeInit rfl
  exact (h.2.1 envEmpty (getState envGitHub homeInit).2 true (by rw [h1.2]; rfl)).1

end GitLens
